import Mathlib

/-!
# Shallow embedding of the `videostreaminghub2` domain logic

This file embeds, as executable Lean definitions, the data model
(`src/app/database/models.py`) and the route handlers of
`src/app/routes/video.py`, `src/app/routes/user.py` and
`src/app/routes/search.py` that the verified claims are about, and proves
the claims over this embedding.

Modelling conventions:
* Database tables are lists of rows; rows are structures whose fields carry
  the column names of the source.  Primary keys (`id` columns) are assumed
  unique where a proof needs it, stated as an explicit `Nodup` hypothesis.
* The three many-to-many association tables (`subscription`, `video_likes`,
  `comment_likes`) are lists of id pairs, exactly as in the schema.
  SQLAlchemy's `collection.append` / `collection.remove` idiom becomes
  appending / erasing a pair.
* Each handler is a pure function from its inputs and the database (plus,
  for file-touching handlers, the filesystem as a list of paths) to an
  `Except` result paired with the post-state.  `raise HTTPException` becomes
  an `ApiError` value carrying the handler's status code and detail string,
  with the state returned unchanged.
* Wall-clock instants (`datetime.utcnow()`) are opaque `Nat` ticks supplied
  as a `now` parameter; the storage-path configuration uses the source's
  default values from `src/app/utils/video.py`.
-/

set_option autoImplicit false

namespace VSHub

/-- A row of the `users` table (`src/app/database/models.py`, class `User`).
Only the columns the verified handlers consult are carried. -/
structure User where
  id : Nat
  username : String
  email : String
  is_active : Bool
  deriving DecidableEq, Repr

/-- A row of the `videos` table (`src/app/database/models.py`, class `Video`).
`file_path` and `thumbnail_path` store basenames, as the upload handler does;
`thumbnail_path` is nullable in the schema. -/
structure Video where
  id : Nat
  title : String
  description : Option String
  file_path : String
  thumbnail_path : Option String
  duration : Int
  views : Nat
  created_at : Nat
  is_private : Bool
  uploader_id : Nat
  deriving DecidableEq, Repr

/-- A row of the `comments` table (`src/app/database/models.py`, class
`Comment`); `parent_id` is the nullable self-referential foreign key. -/
structure Comment where
  id : Nat
  content : String
  user_id : Nat
  video_id : Nat
  parent_id : Option Nat
  deriving DecidableEq, Repr

/-- A row of the `watch_history` table (`src/app/database/models.py`, class
`WatchHistory`): `timestamp` is the position in seconds, `watched_at` the
wall-clock time of the row's creation. -/
structure WatchHistory where
  id : Nat
  timestamp : Int
  watched_at : Nat
  user_id : Nat
  video_id : Nat
  deriving DecidableEq, Repr

/-- The relational state: the four base tables plus the three many-to-many
association tables of `src/app/database/models.py`.  Association pairs are
`(subscriber_id, channel_id)`, `(user_id, video_id)`, `(user_id, comment_id)`
respectively, mirroring the column order of the `Table` declarations. -/
structure DB where
  users : List User
  videos : List Video
  comments : List Comment
  watch_history : List WatchHistory
  subscriptions : List (Nat × Nat)
  video_likes : List (Nat × Nat)
  comment_likes : List (Nat × Nat)
  deriving DecidableEq, Repr

/-- An `HTTPException` raised by a handler, by status code:
404, 403, 400 and 500 are the codes the embedded handlers use. -/
inductive ApiError where
  | notFound (detail : String)
  | forbidden (detail : String)
  | badRequest (detail : String)
  | serverError (detail : String)
  deriving DecidableEq, Repr

/-- The HTTP status code of an `ApiError`. -/
def ApiError.status_code : ApiError → Nat
  | .notFound _ => 404
  | .forbidden _ => 403
  | .badRequest _ => 400
  | .serverError _ => 500

/-- `true` iff the handler returned a 2xx result rather than raising. -/
def is_ok {α : Type} : Except ApiError α → Bool
  | .ok _ => true
  | .error _ => false

/-- Fresh primary key for an autoincrement insert: one more than the largest
id in use. -/
def next_id (ids : List Nat) : Nat :=
  ids.foldr (fun i m => max i m) 0 + 1

/-! ## Storage-path configuration (`src/app/utils/video.py`)

The source reads these from environment variables with the defaults below;
the embedding fixes the default configuration. -/

/-- Default of `VIDEO_STORAGE_PATH`. -/
def VIDEO_STORAGE_PATH : String := "./frontend/static/videos"

/-- Default of `THUMBNAIL_STORAGE_PATH`. -/
def THUMBNAIL_STORAGE_PATH : String := "./frontend/static/thumbnails"

/-- Default of `DEFAULT_THUMBNAIL_PATH`, the shared default thumbnail. -/
def DEFAULT_THUMBNAIL_PATH : String := "./frontend/static/thumbnails/default_video.jpg"

/-- `os.path.join` for the one-directory-deep joins the handlers perform. -/
def path_join (dir file : String) : String := dir ++ "/" ++ file

/-- `os.path.basename`: the component after the last slash. -/
def basename (p : String) : String := (p.splitOn "/").getLastD p

/-- The filesystem, as the set (list) of existing file paths. -/
abbrev FS := List String

/-- `delete_file` of `src/app/utils/video.py`: removes the path if it exists,
returning whether a file was removed, never raising. -/
def delete_file (p : String) (fs : FS) : Bool × FS :=
  if fs.contains p then (true, fs.filter (fun q => q != p)) else (false, fs)

/-! ## Video handlers (`src/app/routes/video.py`) -/

/-- `GET /videos/` (`get_videos`): public videos only, paginated; the
authenticated caller is never consulted. -/
def get_videos (skip limit : Nat) (db : DB) : List Video :=
  ((db.videos.filter (fun v => v.is_private == false)).drop skip).take limit

/-- `GET /videos/{video_id}` (`get_video`): 404 if absent, 403 if private and
the caller is not the uploader, else returns the video after incrementing its
view counter. -/
def get_video (video_id : Nat) (uid : Nat) (db : DB) : Except ApiError Video × DB :=
  match db.videos.find? (fun v => v.id == video_id) with
  | none => (.error (.notFound "Video not found"), db)
  | some video =>
    if video.is_private && uid != video.uploader_id then
      (.error (.forbidden "You do not have permission to view this video"), db)
    else
      (.ok { video with views := video.views + 1 },
       { db with videos := db.videos.map (fun v =>
          if v.id == video_id then { v with views := v.views + 1 } else v) })

/-- `POST /videos/{video_id}/like` (`like_video`): 404 if absent, 403 if
private and the caller is not the uploader, 400 if already liked, else the
pair is appended to the `video_likes` table. -/
def like_video (video_id : Nat) (uid : Nat) (db : DB) : Except ApiError Video × DB :=
  match db.videos.find? (fun v => v.id == video_id) with
  | none => (.error (.notFound "Video not found"), db)
  | some video =>
    if video.is_private && uid != video.uploader_id then
      (.error (.forbidden "You do not have permission to like this video"), db)
    else if db.video_likes.contains (uid, video_id) then
      (.error (.badRequest "You have already liked this video"), db)
    else
      (.ok video, { db with video_likes := db.video_likes ++ [(uid, video_id)] })

/-- `POST /videos/{video_id}/unlike` (`unlike_video`): 404 if absent, 400 if
the caller has not liked it (no privacy check appears in this handler), else
the pair is removed from `video_likes`. -/
def unlike_video (video_id : Nat) (uid : Nat) (db : DB) : Except ApiError Video × DB :=
  match db.videos.find? (fun v => v.id == video_id) with
  | none => (.error (.notFound "Video not found"), db)
  | some video =>
    if db.video_likes.contains (uid, video_id) then
      (.ok video, { db with video_likes := db.video_likes.erase (uid, video_id) })
    else
      (.error (.badRequest "You have not liked this video"), db)

/-- `POST /videos/comments/{comment_id}/like` (`like_comment`): 404 if the
comment is absent, 400 if already liked; the handler performs no visibility
check on the comment's video. -/
def like_comment (comment_id : Nat) (uid : Nat) (db : DB) : Except ApiError Comment × DB :=
  match db.comments.find? (fun c => c.id == comment_id) with
  | none => (.error (.notFound "Comment not found"), db)
  | some comment =>
    if db.comment_likes.contains (uid, comment_id) then
      (.error (.badRequest "You have already liked this comment"), db)
    else
      (.ok comment, { db with comment_likes := db.comment_likes ++ [(uid, comment_id)] })

/-- `POST /videos/comments/{comment_id}/unlike` (`unlike_comment`): 404 if the
comment is absent, 400 if not liked, else the pair is removed. -/
def unlike_comment (comment_id : Nat) (uid : Nat) (db : DB) : Except ApiError Comment × DB :=
  match db.comments.find? (fun c => c.id == comment_id) with
  | none => (.error (.notFound "Comment not found"), db)
  | some comment =>
    if db.comment_likes.contains (uid, comment_id) then
      (.ok comment, { db with comment_likes := db.comment_likes.erase (uid, comment_id) })
    else
      (.error (.badRequest "You have not liked this comment"), db)

/-! ## Subscription handlers (`src/app/routes/user.py`) -/

/-- `POST /users/{username}/subscribe` (`subscribe_to_user`): 404 if no such
user, 400 on self-subscription, 400 if already subscribed, else the
`(subscriber, channel)` pair is appended. -/
def subscribe_to_user (username : String) (uid : Nat) (db : DB) : Except ApiError User × DB :=
  match db.users.find? (fun u => u.username == username) with
  | none => (.error (.notFound "User not found"), db)
  | some channel =>
    if uid == channel.id then
      (.error (.badRequest "You cannot subscribe to yourself"), db)
    else if db.subscriptions.contains (uid, channel.id) then
      (.error (.badRequest "You are already subscribed to this user"), db)
    else
      (.ok channel, { db with subscriptions := db.subscriptions ++ [(uid, channel.id)] })

/-- `POST /users/{username}/unsubscribe` (`unsubscribe_from_user`): 404 if no
such user, 400 if not subscribed, else the pair is removed. -/
def unsubscribe_from_user (username : String) (uid : Nat) (db : DB) : Except ApiError User × DB :=
  match db.users.find? (fun u => u.username == username) with
  | none => (.error (.notFound "User not found"), db)
  | some channel =>
    if db.subscriptions.contains (uid, channel.id) then
      (.ok channel, { db with subscriptions := db.subscriptions.erase (uid, channel.id) })
    else
      (.error (.badRequest "You are not subscribed to this user"), db)

/-! ## Comment handlers (`src/app/routes/video.py`) -/

/-- `POST /videos/{video_id}/comments` (`create_comment`): 404 if the video is
absent, 403 if private and the caller is not the uploader, 404 if the named
parent comment is absent, 400 if the parent belongs to another video, else a
fresh comment row is inserted. -/
def create_comment (video_id : Nat) (content : String) (parent_id : Option Nat)
    (uid : Nat) (db : DB) : Except ApiError Comment × DB :=
  match db.videos.find? (fun v => v.id == video_id) with
  | none => (.error (.notFound "Video not found"), db)
  | some video =>
    if video.is_private && uid != video.uploader_id then
      (.error (.forbidden "You do not have permission to comment on this video"), db)
    else
      match parent_id with
      | some pid =>
        (match db.comments.find? (fun c => c.id == pid) with
         | none => (.error (.notFound "Parent comment not found"), db)
         | some parent =>
           if parent.video_id != video_id then
             (.error (.badRequest "Parent comment does not belong to this video"), db)
           else
             let c : Comment := { id := next_id (db.comments.map (fun c => c.id))
                                  content := content
                                  user_id := uid
                                  video_id := video_id
                                  parent_id := some pid }
             (.ok c, { db with comments := db.comments ++ [c] }))
      | none =>
        let c : Comment := { id := next_id (db.comments.map (fun c => c.id))
                             content := content
                             user_id := uid
                             video_id := video_id
                             parent_id := none }
        (.ok c, { db with comments := db.comments ++ [c] })

/-- `GET /videos/{video_id}/comments` (`get_comments`): 404 if the video is
absent, else the video's top-level comments, paginated.  The handler takes no
authenticated user and performs no privacy check. -/
def get_comments (video_id skip limit : Nat) (db : DB) :
    Except ApiError (List Comment) × DB :=
  match db.videos.find? (fun v => v.id == video_id) with
  | none => (.error (.notFound "Video not found"), db)
  | some _ =>
    (.ok (((db.comments.filter (fun c =>
        c.video_id == video_id && c.parent_id == none)).drop skip).take limit), db)

/-! ## Watch-history handler (`src/app/routes/video.py`) -/

/-- `POST /videos/{video_id}/watch-history` (`update_watch_history`): 404 if
the video is absent, 403 if private and the caller is not the uploader.  If a
row for `(uid, video_id)` exists its `timestamp` is set to the report and its
`watched_at` is assigned the value re-read from the row with the same id
(rows are keyed by their primary key); otherwise a fresh row is inserted with
`watched_at = now`. -/
def update_watch_history (video_id : Nat) (ts : Int) (uid : Nat) (now : Nat)
    (db : DB) : Except ApiError WatchHistory × DB :=
  match db.videos.find? (fun v => v.id == video_id) with
  | none => (.error (.notFound "Video not found"), db)
  | some video =>
    if video.is_private && uid != video.uploader_id then
      (.error (.forbidden "You do not have permission to update watch history for this video"), db)
    else
      match db.watch_history.find? (fun h => h.user_id == uid && h.video_id == video_id) with
      | some h =>
        let reread : Nat :=
          match db.watch_history.find? (fun r => r.id == h.id) with
          | some r => r.watched_at
          | none => h.watched_at
        let h' : WatchHistory := { h with timestamp := ts, watched_at := reread }
        (.ok h',
         { db with watch_history := db.watch_history.map (fun r =>
            if r.id == h.id then { r with timestamp := ts, watched_at := reread } else r) })
      | none =>
        let h : WatchHistory := { id := next_id (db.watch_history.map (fun r => r.id))
                                  timestamp := ts
                                  watched_at := now
                                  user_id := uid
                                  video_id := video_id }
        (.ok h, { db with watch_history := db.watch_history ++ [h] })

/-! ## Video deletion (`src/app/routes/video.py`) -/

/-- `DELETE /videos/{video_id}` (`delete_video`): 404 if absent, 403 if the
caller is not the uploader; otherwise deletes the backing video file, then
the thumbnail file whenever `thumbnail_path` is set (the handler has no
default-thumbnail guard), then the row — the ORM cascades to the video's
comments and watch-history rows and to its association-table entries. -/
def delete_video (video_id : Nat) (uid : Nat) (db : DB) (fs : FS) :
    Except ApiError Unit × DB × FS :=
  match db.videos.find? (fun v => v.id == video_id) with
  | none => (.error (.notFound "Video not found"), db, fs)
  | some video =>
    if uid != video.uploader_id then
      (.error (.forbidden "You do not have permission to delete this video"), db, fs)
    else
      let fs1 := (delete_file (path_join VIDEO_STORAGE_PATH video.file_path) fs).2
      let fs2 := match video.thumbnail_path with
        | some t => (delete_file (path_join THUMBNAIL_STORAGE_PATH t) fs1).2
        | none => fs1
      let db' : DB := { db with
        videos := db.videos.filter (fun v => v.id != video_id)
        comments := db.comments.filter (fun c => c.video_id != video_id)
        watch_history := db.watch_history.filter (fun h => h.video_id != video_id)
        video_likes := db.video_likes.filter (fun p => p.2 != video_id)
        comment_likes := db.comment_likes.filter (fun p =>
          !(db.comments.any (fun c => c.id == p.2 && c.video_id == video_id))) }
      (.ok (), db', fs2)

/-! ## Video upload (`src/app/routes/video.py`, `create_video`)

The effectful collaborators are parameters: `video_name` is the unique
filename `save_upload_file` chooses for the video; the thumbnail step's
outcome is a `ThumbResult`; `commit_fails` says whether `db.add`/`db.commit`
raises (the forced persistence failure of the claims). -/

/-- Outcome of the thumbnail step of the upload: either a new file with the
given unique name was written under the thumbnail directory (caller-supplied
and saved, or extracted by the external tool), or the shared default
thumbnail was substituted and nothing was written. -/
inductive ThumbResult where
  | file (name : String)
  | fallback
  deriving DecidableEq, Repr

/-- The `thumbnail_path` local variable after the thumbnail step. -/
def ThumbResult.path : ThumbResult → String
  | .file name => path_join THUMBNAIL_STORAGE_PATH name
  | .fallback => DEFAULT_THUMBNAIL_PATH

/-- `POST /videos/` (`create_video`): writes the video file, resolves the
thumbnail, computes the duration, then persists the row.  If persistence
raises, the except-branch deletes the video file and the thumbnail file
(unless it is the default thumbnail), rolls back, and re-raises as a 500. -/
def create_video (title : String) (descr : Option String) (is_private : Bool)
    (uid : Nat) (video_name : String) (thumb : ThumbResult) (duration : Int)
    (commit_fails : Bool) (now : Nat) (db : DB) (fs : FS) :
    Except ApiError Video × DB × FS :=
  let video_path := path_join VIDEO_STORAGE_PATH video_name
  let fs1 : FS := video_path :: fs
  let thumbnail_path := thumb.path
  let fs2 : FS := match thumb with
    | .file name => path_join THUMBNAIL_STORAGE_PATH name :: fs1
    | .fallback => fs1
  if commit_fails then
    let fs3 := if fs2.contains video_path then (delete_file video_path fs2).2 else fs2
    let fs4 := if thumbnail_path != DEFAULT_THUMBNAIL_PATH && fs3.contains thumbnail_path
      then (delete_file thumbnail_path fs3).2 else fs3
    (.error (.serverError "Error uploading video"), db, fs4)
  else
    let v : Video := { id := next_id (db.videos.map (fun v => v.id))
                       title := title
                       description := descr
                       file_path := basename video_path
                       thumbnail_path := some (basename thumbnail_path)
                       duration := duration
                       views := 0
                       created_at := now
                       is_private := is_private
                       uploader_id := uid }
    (.ok v, { db with videos := db.videos ++ [v] }, fs2)

/-! ## Search (`src/app/routes/search.py` and `VideoSearchParams` of
`src/app/models/schemas.py`) -/

/-- The query parameters of `GET /search/videos`; the pydantic defaults are
`sort_by="created_at"`, `sort_order="desc"`, `limit=10`, `offset=0`. -/
structure VideoSearchParams where
  query : Option String := none
  uploader : Option String := none
  min_duration : Option Int := none
  max_duration : Option Int := none
  sort_by : Option String := some "created_at"
  sort_order : Option String := some "desc"
  limit : Nat := 10
  offset : Nat := 0
  deriving DecidableEq, Repr

/-- `leads pat s` holds when `pat` is an initial segment of `s`. -/
def leads : List Char → List Char → Bool
  | [], _ => true
  | _ :: _, [] => false
  | a :: pa, b :: sb => a == b && leads pa sb

/-- `occurs pat s` holds when `pat` occurs contiguously somewhere in `s`. -/
def occurs (pat : List Char) : List Char → Bool
  | [] => pat.isEmpty
  | b :: sb => leads pat (b :: sb) || occurs pat sb

/-- The `ILIKE '%q%'` text filter on title OR description: case-insensitive
substring containment (SQL wildcards inside `q` are out of scope).  A `NULL`
description matches nothing, as in SQL. -/
def text_match (q : String) (v : Video) : Bool :=
  occurs q.toLower.toList v.title.toLower.toList ||
    (match v.description with
     | some d => occurs q.toLower.toList d.toLower.toList
     | none => false)

/-- The join-and-filter on the uploader's username. -/
def uploader_match (users : List User) (uname : String) (v : Video) : Bool :=
  users.any (fun u => u.id == v.uploader_id && u.username == uname)

/-- The comparison the handler's `order_by` chain selects: key `views` or
`duration` when named, `created_at` otherwise; ascending iff `sort_order`
is `"asc"`, descending otherwise. -/
def search_le (params : VideoSearchParams) (a b : Video) : Bool :=
  if params.sort_by == some "views" then
    if params.sort_order == some "asc" then a.views ≤ b.views else b.views ≤ a.views
  else if params.sort_by == some "duration" then
    if params.sort_order == some "asc" then a.duration ≤ b.duration else b.duration ≤ a.duration
  else
    if params.sort_order == some "asc" then a.created_at ≤ b.created_at
    else b.created_at ≤ a.created_at

/-- `GET /search/videos` (`search_videos`): public videos, optionally narrowed
by text, uploader and duration range, sorted by the selected key and
direction, then paginated by `(offset, limit)`. -/
def search_videos (params : VideoSearchParams) (db : DB) : List Video :=
  let q0 : List Video := db.videos.filter (fun v => v.is_private == false)
  let q1 : List Video := match params.query with
    | some s => q0.filter (fun v => text_match s v)
    | none => q0
  let q2 : List Video := match params.uploader with
    | some uname => q1.filter (fun v => uploader_match db.users uname v)
    | none => q1
  let q3 : List Video := match params.min_duration with
    | some m => q2.filter (fun v => m ≤ v.duration)
    | none => q2
  let q4 : List Video := match params.max_duration with
    | some m => q3.filter (fun v => v.duration ≤ m)
    | none => q3
  let sorted := q4.mergeSort (search_le params)
  (sorted.drop params.offset).take params.limit

/-! ## Helper lemmas -/

/-- The guard `video.is_private and current_user.id != video.uploader_id` is
false exactly when the video is public or the caller is the uploader. -/
theorem visible_cond_eq_false {video : Video} {uid : Nat}
    (h : video.is_private = false ∨ uid = video.uploader_id) :
    (video.is_private && uid != video.uploader_id) = false := by
  rcases h with h | h
  · simp [h]
  · simp [h]

/-- Appending a fresh pair and erasing it restores the association list. -/
theorem erase_append_single {l : List (Nat × Nat)} {p : Nat × Nat} (h : p ∉ l) :
    (l ++ [p]).erase p = l := by
  rw [List.erase_append_right _ h, List.erase_cons_head]
  simp

/-! ## C6: like/unlike contract -/

/-- C6.  For a likeable target (video or comment): a second like by the same
user fails with the already-liked 400 error and leaves the state unchanged;
an unlike without a prior like fails with the not-liked 400 error and leaves
the state unchanged; and like followed by unlike by the same user restores
the state (in particular the target's like-set) exactly.  The spec's
`Conflict(AlreadyLiked)` / `Conflict(NotLiked)` kinds are realised by the
handlers as status-400 errors with the detail strings below, matching the
spec's own rendering of duplicate-conflicts as 400 responses. -/
theorem like_unlike_toggle_contract (db : DB) (vid cid uid : Nat)
    (video : Video) (comment : Comment)
    (hv : db.videos.find? (fun v => v.id == vid) = some video)
    (hauth : video.is_private = false ∨ uid = video.uploader_id)
    (hc : db.comments.find? (fun c => c.id == cid) = some comment) :
    (db.video_likes.contains (uid, vid) = true →
      like_video vid uid db = (.error (.badRequest "You have already liked this video"), db)) ∧
    (db.video_likes.contains (uid, vid) = false →
      unlike_video vid uid db = (.error (.badRequest "You have not liked this video"), db)) ∧
    (db.video_likes.contains (uid, vid) = false →
      (unlike_video vid uid (like_video vid uid db).2).2 = db) ∧
    (db.comment_likes.contains (uid, cid) = true →
      like_comment cid uid db = (.error (.badRequest "You have already liked this comment"), db)) ∧
    (db.comment_likes.contains (uid, cid) = false →
      unlike_comment cid uid db = (.error (.badRequest "You have not liked this comment"), db)) ∧
    (db.comment_likes.contains (uid, cid) = false →
      (unlike_comment cid uid (like_comment cid uid db).2).2 = db) := by
  refine ⟨?_, ?_, ?_, ?_, ?_, ?_⟩
  · intro h
    have hmem : (uid, vid) ∈ db.video_likes := by simpa using h
    simp [like_video, hv, visible_cond_eq_false hauth, hmem]
  · intro h
    have hmem : (uid, vid) ∉ db.video_likes := by simpa using h
    simp [unlike_video, hv, hmem]
  · intro h
    have hmem : (uid, vid) ∉ db.video_likes := by simpa using h
    have e1 : (like_video vid uid db).2
        = { db with video_likes := db.video_likes ++ [(uid, vid)] } := by
      simp [like_video, hv, visible_cond_eq_false hauth, hmem]
    rw [e1]
    have hv2 : ({ db with video_likes := db.video_likes ++ [(uid, vid)] } : DB).videos.find?
        (fun v => v.id == vid) = some video := hv
    simp [unlike_video, hv2, erase_append_single hmem]
  · intro h
    have hmem : (uid, cid) ∈ db.comment_likes := by simpa using h
    simp [like_comment, hc, hmem]
  · intro h
    have hmem : (uid, cid) ∉ db.comment_likes := by simpa using h
    simp [unlike_comment, hc, hmem]
  · intro h
    have hmem : (uid, cid) ∉ db.comment_likes := by simpa using h
    have e1 : (like_comment cid uid db).2
        = { db with comment_likes := db.comment_likes ++ [(uid, cid)] } := by
      simp [like_comment, hc, hmem]
    rw [e1]
    have hc2 : ({ db with comment_likes := db.comment_likes ++ [(uid, cid)] } : DB).comments.find?
        (fun c => c.id == cid) = some comment := hc
    simp [unlike_comment, hc2, erase_append_single hmem]

/-- Sample state for the C6 witness: public video 1 (uploaded by user 1) that
user 2 has liked, and comment 5 that user 2 has not liked. -/
def db_c6 : DB :=
  { users := [{ id := 1, username := "alice", email := "a@x", is_active := true }]
    videos := [{ id := 1, title := "t", description := none, file_path := "f.mp4", thumbnail_path := none, duration := 10, views := 0, created_at := 5, is_private := false, uploader_id := 1 }]
    comments := [{ id := 5, content := "hi", user_id := 1, video_id := 1, parent_id := none }]
    watch_history := []
    subscriptions := []
    video_likes := [(2, 1)]
    comment_likes := [] }

/-- Witness for C6 at the concrete state `db_c6`, caller 2. -/
theorem like_unlike_toggle_contract_witness :
    (db_c6.videos.find? (fun v => v.id == 1)
        = some { id := 1, title := "t", description := none, file_path := "f.mp4", thumbnail_path := none, duration := 10, views := 0, created_at := 5, is_private := false, uploader_id := 1 }) ∧
    (db_c6.video_likes.contains (2, 1) = true →
      like_video 1 2 db_c6 = (.error (.badRequest "You have already liked this video"), db_c6)) ∧
    (db_c6.comment_likes.contains (2, 5) = false →
      (unlike_comment 5 2 (like_comment 5 2 db_c6).2).2 = db_c6) := by
  have h := like_unlike_toggle_contract db_c6 1 5 2
    { id := 1, title := "t", description := none, file_path := "f.mp4", thumbnail_path := none, duration := 10, views := 0, created_at := 5, is_private := false, uploader_id := 1 }
    { id := 5, content := "hi", user_id := 1, video_id := 1, parent_id := none }
    (by decide) (Or.inl (by decide)) (by decide)
  exact ⟨by decide, h.1, h.2.2.2.2.2⟩

/-! ## C7: subscribe/unsubscribe contract -/

/-- C7.  Subscribing to oneself fails with the self-subscription 400 error;
subscribing when already subscribed fails with the already-subscribed 400
error; unsubscribing when not subscribed fails with the not-subscribed 400
error; in each failure case the state (in particular the subscription set)
is returned unchanged. -/
theorem subscribe_toggle_contract (db : DB) (username : String) (uid : Nat)
    (channel : User)
    (hu : db.users.find? (fun u => u.username == username) = some channel) :
    (uid = channel.id →
      subscribe_to_user username uid db
        = (.error (.badRequest "You cannot subscribe to yourself"), db)) ∧
    (uid ≠ channel.id → db.subscriptions.contains (uid, channel.id) = true →
      subscribe_to_user username uid db
        = (.error (.badRequest "You are already subscribed to this user"), db)) ∧
    (db.subscriptions.contains (uid, channel.id) = false →
      unsubscribe_from_user username uid db
        = (.error (.badRequest "You are not subscribed to this user"), db)) := by
  refine ⟨?_, ?_, ?_⟩
  · intro h
    simp [subscribe_to_user, hu, h]
  · intro h hsub
    have hmem : (uid, channel.id) ∈ db.subscriptions := by simpa using hsub
    simp [subscribe_to_user, hu, h, hmem]
  · intro h
    have hmem : (uid, channel.id) ∉ db.subscriptions := by simpa using h
    simp [unsubscribe_from_user, hu, hmem]

/-- Sample state for the C7 witness: users 1 and 2, with user 2 subscribed
to user 1. -/
def db_c7 : DB :=
  { users := [{ id := 1, username := "alice", email := "a@x", is_active := true }, { id := 2, username := "bob", email := "b@x", is_active := true }]
    videos := []
    comments := []
    watch_history := []
    subscriptions := [(2, 1)]
    video_likes := []
    comment_likes := [] }

/-- Witness for C7 at the concrete state `db_c7`. -/
theorem subscribe_toggle_contract_witness :
    (db_c7.users.find? (fun u => u.username == "alice")
        = some { id := 1, username := "alice", email := "a@x", is_active := true }) ∧
    ((1 : Nat) = 1 →
      subscribe_to_user "alice" 1 db_c7
        = (.error (.badRequest "You cannot subscribe to yourself"), db_c7)) ∧
    ((2 : Nat) ≠ 1 → db_c7.subscriptions.contains (2, 1) = true →
      subscribe_to_user "alice" 2 db_c7
        = (.error (.badRequest "You are already subscribed to this user"), db_c7)) := by
  have h1 := subscribe_toggle_contract db_c7 "alice" 1
    { id := 1, username := "alice", email := "a@x", is_active := true } (by decide)
  have h2 := subscribe_toggle_contract db_c7 "alice" 2
    { id := 1, username := "alice", email := "a@x", is_active := true } (by decide)
  exact ⟨by decide, h1.1, h2.2.1⟩

/-! ## C8: reply parent must belong to the same video -/

/-- C8.  Creating a comment whose `parent_id` names a comment of a different
video fails with the 400 parent-mismatch error and leaves the state (hence
the comment table) unchanged; a reply whose parent belongs to the same video
succeeds and appends exactly one comment row carrying the requested video,
parent, author and content. -/
theorem comment_parent_same_video (db : DB) (vid pid uid : Nat)
    (content : String) (video : Video) (parent : Comment)
    (hv : db.videos.find? (fun v => v.id == vid) = some video)
    (hauth : video.is_private = false ∨ uid = video.uploader_id)
    (hp : db.comments.find? (fun c => c.id == pid) = some parent) :
    (parent.video_id ≠ vid →
      create_comment vid content (some pid) uid db
        = (.error (.badRequest "Parent comment does not belong to this video"), db)) ∧
    (parent.video_id = vid →
      ∃ c : Comment, create_comment vid content (some pid) uid db
          = (.ok c, { db with comments := db.comments ++ [c] }) ∧
        c.video_id = vid ∧ c.parent_id = some pid ∧ c.user_id = uid ∧
        c.content = content) := by
  constructor
  · intro h
    simp [create_comment, hv, visible_cond_eq_false hauth, hp, h]
  · intro h
    refine ⟨{ id := next_id (db.comments.map (fun c => c.id)), content := content, user_id := uid, video_id := vid, parent_id := some pid }, ?_, rfl, rfl, rfl, rfl⟩
    simp [create_comment, hv, visible_cond_eq_false hauth, hp, h]

/-- Sample state for the C8 witness: public videos 1 and 2, with comment 5
attached to video 2. -/
def db_c8 : DB :=
  { users := [{ id := 1, username := "alice", email := "a@x", is_active := true }]
    videos := [{ id := 1, title := "t", description := none, file_path := "f.mp4", thumbnail_path := none, duration := 10, views := 0, created_at := 5, is_private := false, uploader_id := 1 }, { id := 2, title := "u", description := none, file_path := "g.mp4", thumbnail_path := none, duration := 10, views := 0, created_at := 6, is_private := false, uploader_id := 1 }]
    comments := [{ id := 5, content := "hi", user_id := 1, video_id := 2, parent_id := none }]
    watch_history := []
    subscriptions := []
    video_likes := []
    comment_likes := [] }

/-- Witness for C8 at the concrete state `db_c8`: replying under video 1 to
comment 5 (which belongs to video 2) fails with the parent-mismatch error. -/
theorem comment_parent_same_video_witness :
    (2 : Nat) ≠ 1 ∧
    create_comment 1 "re" (some 5) 1 db_c8
      = (.error (.badRequest "Parent comment does not belong to this video"), db_c8) := by
  have h := comment_parent_same_video db_c8 1 5 1 "re"
    { id := 1, title := "t", description := none, file_path := "f.mp4", thumbnail_path := none, duration := 10, views := 0, created_at := 5, is_private := false, uploader_id := 1 }
    { id := 5, content := "hi", user_id := 1, video_id := 2, parent_id := none }
    (by decide) (Or.inl (by decide)) (by decide)
  exact ⟨by decide, h.1 (by decide)⟩

/-! ## C10: the general listing never contains private videos -/

/-- C10.  Every video returned by `GET /videos/` is public, for every caller
(the handler never consults the authenticated user); in particular a private
video never appears in the listing even for its uploader, although the
uploader's individual `GET /videos/{id}` on it succeeds. -/
theorem listing_excludes_private (db : DB) (skip limit vid : Nat)
    (video : Video)
    (hv : db.videos.find? (fun v => v.id == vid) = some video)
    (hp : video.is_private = true) :
    (∀ v ∈ get_videos skip limit db, v.is_private = false) ∧
    video ∉ get_videos skip limit db ∧
    is_ok (get_video vid video.uploader_id db).1 = true := by
  have hpub : ∀ v ∈ get_videos skip limit db, v.is_private = false := by
    intro v hmem
    have h1 : v ∈ (db.videos.filter (fun v => v.is_private == false)).drop skip :=
      (List.take_sublist _ _).subset hmem
    have h2 : v ∈ db.videos.filter (fun v => v.is_private == false) :=
      (List.drop_sublist _ _).subset h1
    simpa using (List.mem_filter.mp h2).2
  refine ⟨hpub, ?_, ?_⟩
  · intro hmem
    rw [hpub video hmem] at hp
    exact Bool.false_ne_true hp
  · simp [get_video, hv, is_ok]

/-- Sample state for the C10 witness: private video 1 uploaded by user 1. -/
def db_c10 : DB :=
  { users := [{ id := 1, username := "alice", email := "a@x", is_active := true }]
    videos := [{ id := 1, title := "t", description := none, file_path := "f.mp4", thumbnail_path := none, duration := 10, views := 0, created_at := 5, is_private := true, uploader_id := 1 }]
    comments := []
    watch_history := []
    subscriptions := []
    video_likes := []
    comment_likes := [] }

/-- Witness for C10 at the concrete state `db_c10`: uploader 1's private
video is absent from the listing but individually viewable by uploader 1. -/
theorem listing_excludes_private_witness :
    ({ id := 1, title := "t", description := none, file_path := "f.mp4", thumbnail_path := none, duration := 10, views := 0, created_at := 5, is_private := true, uploader_id := 1 } : Video)
        ∉ get_videos 0 10 db_c10 ∧
    is_ok (get_video 1 1 db_c10).1 = true := by
  have h := listing_excludes_private db_c10 0 10 1
    { id := 1, title := "t", description := none, file_path := "f.mp4", thumbnail_path := none, duration := 10, views := 0, created_at := 5, is_private := true, uploader_id := 1 }
    (by decide) rfl
  exact ⟨h.2.1, h.2.2⟩

/-! ## Helper lemmas for autoincrement keys and keyed lookup -/

/-- Every member of a list is bounded by its `foldr max`. -/
theorem mem_le_foldr_max (ids : List Nat) :
    ∀ i ∈ ids, i ≤ ids.foldr (fun i m => max i m) 0 := by
  induction ids with
  | nil =>
    intro i h
    cases h
  | cons a tl ih =>
    intro i h
    rcases List.mem_cons.mp h with rfl | h'
    · simp only [List.foldr_cons]
      exact Nat.le_max_left _ _
    · simp only [List.foldr_cons]
      exact le_trans (ih i h') (Nat.le_max_right _ _)

/-- A freshly generated autoincrement key is not already in use. -/
theorem next_id_not_mem (ids : List Nat) : next_id ids ∉ ids := by
  intro h
  have h1 := mem_le_foldr_max ids _ h
  unfold next_id at h1
  omega

/-- An in-place update that touches no element leaves the table unchanged. -/
theorem map_eq_self {α : Type} {f : α → α} {l : List α}
    (h : ∀ a ∈ l, f a = a) : l.map f = l := by
  induction l with
  | nil => rfl
  | cons a tl ih =>
    rw [List.map_cons, h a (List.mem_cons_self a tl),
      ih (fun b hb => h b (List.mem_cons_of_mem a hb))]

/-- Looking a row up again by its key finds the same row, when keys are
unique (the primary-key guarantee). -/
theorem find?_key_of_nodup {α : Type} (key : α → Nat) {l : List α} {h : α}
    (hnd : (l.map key).Nodup) (hmem : h ∈ l) :
    l.find? (fun r => key r == key h) = some h := by
  induction l with
  | nil => cases hmem
  | cons a tl ih =>
    rcases List.mem_cons.mp hmem with rfl | hmem'
    · simp
    · rw [List.map_cons] at hnd
      have hka : key a ≠ key h := by
        intro he
        exact (List.nodup_cons.mp hnd).1 (he ▸ List.mem_map_of_mem key hmem')
      rw [List.find?_cons_of_neg _ (by simpa using hka)]
      exact ih (List.nodup_cons.mp hnd).2 hmem'

/-- Two rows of a table with equal keys are the same row, when keys are
unique. -/
theorem key_eq_of_nodup {α : Type} (key : α → Nat) {l : List α} {a b : α}
    (hnd : (l.map key).Nodup) (ha : a ∈ l) (hb : b ∈ l) (hk : key a = key b) :
    a = b := by
  induction l with
  | nil => cases ha
  | cons c tl ih =>
    rw [List.map_cons] at hnd
    rcases List.mem_cons.mp ha with rfl | ha' <;>
      rcases List.mem_cons.mp hb with rfl | hb'
    · rfl
    · exact absurd (hk ▸ List.mem_map_of_mem key hb') (List.nodup_cons.mp hnd).1
    · exact absurd (hk ▸ List.mem_map_of_mem key ha') (List.nodup_cons.mp hnd).1
    · exact ih (List.nodup_cons.mp hnd).2 ha' hb'

/-! ## C5: updating watch history preserves `watched_at` -/

/-- C5.  When `update_watch_history` updates an existing row for a
`(user, video)` pair, the returned row is the old row with only `timestamp`
replaced — `watched_at` keeps its pre-update value (the handler re-reads it
from the same row instead of refreshing it to `now`) — and, row by row,
every field of the table other than `timestamp` is unchanged. -/
theorem watch_history_update_preserves_watched_at (db : DB) (vid uid : Nat)
    (ts : Int) (now : Nat) (video : Video) (h : WatchHistory)
    (hv : db.videos.find? (fun v => v.id == vid) = some video)
    (hauth : video.is_private = false ∨ uid = video.uploader_id)
    (hnd : (db.watch_history.map (fun r => r.id)).Nodup)
    (hfind : db.watch_history.find? (fun r => r.user_id == uid && r.video_id == vid)
      = some h) :
    (update_watch_history vid ts uid now db).1 = .ok { h with timestamp := ts } ∧
    ((update_watch_history vid ts uid now db).2).watch_history.map
        (fun r => (r.id, r.watched_at, r.user_id, r.video_id))
      = db.watch_history.map (fun r => (r.id, r.watched_at, r.user_id, r.video_id)) := by
  have hmem : h ∈ db.watch_history := List.mem_of_find?_eq_some hfind
  have hre : db.watch_history.find? (fun r => r.id == h.id) = some h :=
    find?_key_of_nodup (fun r => r.id) hnd hmem
  constructor
  · simp [update_watch_history, hv, visible_cond_eq_false hauth, hfind, hre]
  · simp only [update_watch_history, hv, visible_cond_eq_false hauth, hfind, hre]
    simp only [Bool.false_eq_true, if_false, List.map_map]
    apply List.map_congr_left
    intro a ha
    by_cases hid : (a.id == h.id) = true
    · have haeq : a = h := key_eq_of_nodup (fun r => r.id) hnd ha hmem (by simpa using hid)
      subst haeq
      simp
    · simp [Function.comp, hid]

/-! ## Filesystem helper lemmas -/

/-- A deleted path is gone. -/
theorem not_mem_filter_ne (p : String) (l : FS) :
    p ∉ l.filter (fun q => q != p) := by
  intro h
  rcases List.mem_filter.mp h with ⟨_, hne⟩
  simp at hne

/-- Deleting one path keeps every other existing path. -/
theorem mem_filter_ne {p q : String} {l : FS} (h : q ∈ l) (hne : q ≠ p) :
    q ∈ l.filter (fun x => x != p) :=
  List.mem_filter.mpr ⟨h, by simpa using hne⟩

/-- Deletion only removes paths. -/
theorem filter_ne_subset (p : String) (l : FS) :
    ∀ q ∈ l.filter (fun x => x != p), q ∈ l :=
  fun _ hq => (List.mem_filter.mp hq).1

/-- The filesystem after `delete_file`, as a conditional. -/
theorem delete_file_snd (p : String) (l : FS) :
    (delete_file p l).2 = if l.contains p then l.filter (fun q => q != p) else l := by
  unfold delete_file
  split <;> rfl

/-- After `delete_file p`, the path `p` is gone (it was either removed or was
never there). -/
theorem not_mem_delete_file (p : String) (l : FS) : p ∉ (delete_file p l).2 := by
  rw [delete_file_snd]
  split
  · exact not_mem_filter_ne p l
  · next hc =>
    rw [Bool.not_eq_true] at hc
    simpa using hc

/-- `delete_file` never adds a path. -/
theorem delete_file_subset (p : String) (l : FS) :
    ∀ q ∈ (delete_file p l).2, q ∈ l := by
  rw [delete_file_snd]
  split
  · exact filter_ne_subset p l
  · exact fun q h => h

/-! ## C4: watch history is an upsert per (user, video) pair -/

/-- C4.  Starting from a state with no watch-history row for `(uid, vid)`,
reporting progress creates exactly one row for the pair, and reporting a
second time updates that same row in place: afterwards exactly one row for
the pair exists and its `timestamp` equals the second report's value. -/
theorem watch_history_upsert_single_row (db : DB) (vid uid : Nat)
    (t1 t2 : Int) (n1 n2 : Nat) (video : Video)
    (hv : db.videos.find? (fun v => v.id == vid) = some video)
    (hauth : video.is_private = false ∨ uid = video.uploader_id)
    (hnone : db.watch_history.filter
      (fun r => r.user_id == uid && r.video_id == vid) = []) :
    (((update_watch_history vid t1 uid n1 db).2).watch_history.filter
        (fun r => r.user_id == uid && r.video_id == vid)).length = 1 ∧
    (((update_watch_history vid t2 uid n2
          (update_watch_history vid t1 uid n1 db).2).2).watch_history.filter
        (fun r => r.user_id == uid && r.video_id == vid)).length = 1 ∧
    ∀ r ∈ ((update_watch_history vid t2 uid n2
          (update_watch_history vid t1 uid n1 db).2).2).watch_history.filter
        (fun r => r.user_id == uid && r.video_id == vid),
      r.timestamp = t2 := by
  have hfn : db.watch_history.find?
      (fun r => r.user_id == uid && r.video_id == vid) = none := by
    rw [List.find?_eq_none]
    exact fun x hx => List.filter_eq_nil_iff.mp hnone x hx
  have e1 : (update_watch_history vid t1 uid n1 db).2
      = { db with watch_history := db.watch_history
            ++ [{ id := next_id (db.watch_history.map (fun r => r.id)), timestamp := t1, watched_at := n1, user_id := uid, video_id := vid }] } := by
    simp [update_watch_history, hv, visible_cond_eq_false hauth, hfn]
  have hfresh : ∀ r ∈ db.watch_history,
      (r.id == next_id (db.watch_history.map (fun r => r.id))) = false := by
    intro r hr
    have hin : r.id ∈ db.watch_history.map (fun r => r.id) :=
      List.mem_map_of_mem _ hr
    have hne : r.id ≠ next_id (db.watch_history.map (fun r => r.id)) :=
      fun he => next_id_not_mem _ (he ▸ hin)
    simpa using hne
  have hfilter1 : ((update_watch_history vid t1 uid n1 db).2).watch_history.filter
      (fun r => r.user_id == uid && r.video_id == vid)
      = [{ id := next_id (db.watch_history.map (fun r => r.id)), timestamp := t1, watched_at := n1, user_id := uid, video_id := vid }] := by
    rw [e1]
    simp [List.filter_append, hnone]
  have hfn2 : (db.watch_history
        ++ [({ id := next_id (db.watch_history.map (fun r => r.id)), timestamp := t1, watched_at := n1, user_id := uid, video_id := vid } : WatchHistory)]).find?
      (fun r => r.user_id == uid && r.video_id == vid)
      = some { id := next_id (db.watch_history.map (fun r => r.id)), timestamp := t1, watched_at := n1, user_id := uid, video_id := vid } := by
    rw [List.find?_append, hfn]
    simp
  have hfid : (db.watch_history
        ++ [({ id := next_id (db.watch_history.map (fun r => r.id)), timestamp := t1, watched_at := n1, user_id := uid, video_id := vid } : WatchHistory)]).find?
      (fun r => r.id == next_id (db.watch_history.map (fun r => r.id)))
      = some { id := next_id (db.watch_history.map (fun r => r.id)), timestamp := t1, watched_at := n1, user_id := uid, video_id := vid } := by
    have hl : db.watch_history.find?
        (fun r => r.id == next_id (db.watch_history.map (fun r => r.id))) = none := by
      rw [List.find?_eq_none]
      intro x hx
      simp [hfresh x hx]
    rw [List.find?_append, hl]
    simp
  have e2l : ((update_watch_history vid t2 uid n2
        (update_watch_history vid t1 uid n1 db).2).2).watch_history
      = db.watch_history
          ++ [{ id := next_id (db.watch_history.map (fun r => r.id)), timestamp := t2, watched_at := n1, user_id := uid, video_id := vid }] := by
    rw [e1]
    simp only [update_watch_history, hv, visible_cond_eq_false hauth, hfn2, hfid,
      Bool.false_eq_true, if_false]
    rw [List.map_append]
    congr 1
    · exact map_eq_self (fun a ha => by simp [hfresh a ha])
    · simp
  refine ⟨?_, ?_, ?_⟩
  · rw [hfilter1]
    rfl
  · rw [e2l, List.filter_append, hnone]
    simp
  · intro r hr
    rw [e2l, List.filter_append, hnone, List.nil_append] at hr
    have hr' : r ∈ [({ id := next_id (db.watch_history.map (fun r => r.id)), timestamp := t2, watched_at := n1, user_id := uid, video_id := vid } : WatchHistory)] := by
      simpa using hr
    rcases List.mem_singleton.mp hr' with rfl
    rfl

/-- Sample state for the C4 witness: public video 1, no watch history. -/
def db_c4 : DB :=
  { users := [{ id := 1, username := "alice", email := "a@x", is_active := true }]
    videos := [{ id := 1, title := "t", description := none, file_path := "f.mp4", thumbnail_path := none, duration := 10, views := 0, created_at := 5, is_private := false, uploader_id := 1 }]
    comments := []
    watch_history := []
    subscriptions := []
    video_likes := []
    comment_likes := [] }

/-- Witness for C4 at the concrete state `db_c4`: two reports by user 2
leave exactly one row for the pair, bearing the second timestamp. -/
theorem watch_history_upsert_single_row_witness :
    (((update_watch_history 1 55 2 200
          (update_watch_history 1 17 2 100 db_c4).2).2).watch_history.filter
        (fun r => r.user_id == 2 && r.video_id == 1)).length = 1 := by
  have h := watch_history_upsert_single_row db_c4 1 2 17 55 100 200
    { id := 1, title := "t", description := none, file_path := "f.mp4", thumbnail_path := none, duration := 10, views := 0, created_at := 5, is_private := false, uploader_id := 1 }
    (by decide) (Or.inl (by decide)) (by decide)
  exact h.2.1

/-- Sample state for the C5 witness: public video 1 and an existing
watch-history row for user 2 with `watched_at = 100`. -/
def db_c5 : DB :=
  { users := [{ id := 1, username := "alice", email := "a@x", is_active := true }]
    videos := [{ id := 1, title := "t", description := none, file_path := "f.mp4", thumbnail_path := none, duration := 10, views := 0, created_at := 5, is_private := false, uploader_id := 1 }]
    comments := []
    watch_history := [{ id := 3, timestamp := 17, watched_at := 100, user_id := 2, video_id := 1 }]
    subscriptions := []
    video_likes := []
    comment_likes := [] }

/-- Witness for C5 at the concrete state `db_c5`: a second report at
wall-clock 200 keeps `watched_at = 100` and only changes `timestamp`. -/
theorem watch_history_update_preserves_watched_at_witness :
    (update_watch_history 1 42 2 200 db_c5).1
      = .ok { id := 3, timestamp := 42, watched_at := 100, user_id := 2, video_id := 1 } := by
  have h := watch_history_update_preserves_watched_at db_c5 1 2 42 200
    { id := 1, title := "t", description := none, file_path := "f.mp4", thumbnail_path := none, duration := 10, views := 0, created_at := 5, is_private := false, uploader_id := 1 }
    { id := 3, timestamp := 17, watched_at := 100, user_id := 2, video_id := 1 }
    (by decide) (Or.inl (by decide)) (by decide) (by decide)
  exact h.1

/-! ## C2: cleanup on upload persistence failure -/

/-- C2.  If persisting the `Video` row fails after the video file (and
possibly a thumbnail file) has been written, the handler's except-branch
deletes the video file and any thumbnail file that is not the shared default
thumbnail, leaves the database unchanged, and surfaces the failure as the
500 upload error; the default thumbnail file itself is never deleted by this
cleanup.  The hypothesis records that the video file's path differs from the
default thumbnail's path (they live in different storage directories). -/
theorem upload_failure_cleanup (title : String) (descr : Option String)
    (ip : Bool) (uid : Nat) (video_name : String) (thumb : ThumbResult)
    (duration : Int) (now : Nat) (db : DB) (fs : FS)
    (hvp : path_join VIDEO_STORAGE_PATH video_name ≠ DEFAULT_THUMBNAIL_PATH) :
    (create_video title descr ip uid video_name thumb duration true now db fs).1
      = .error (.serverError "Error uploading video") ∧
    (create_video title descr ip uid video_name thumb duration true now db fs).2.1 = db ∧
    path_join VIDEO_STORAGE_PATH video_name
      ∉ (create_video title descr ip uid video_name thumb duration true now db fs).2.2 ∧
    (thumb.path ≠ DEFAULT_THUMBNAIL_PATH →
      thumb.path ∉ (create_video title descr ip uid video_name thumb duration true now db fs).2.2) ∧
    (DEFAULT_THUMBNAIL_PATH ∈ fs →
      DEFAULT_THUMBNAIL_PATH
        ∈ (create_video title descr ip uid video_name thumb duration true now db fs).2.2) := by
  have hvp2 : (DEFAULT_THUMBNAIL_PATH != path_join VIDEO_STORAGE_PATH video_name) = true := by
    simpa using Ne.symm hvp
  cases thumb with
  | fallback =>
    refine ⟨by simp [create_video, delete_file], by simp [create_video, delete_file],
      ?_, ?_, ?_⟩
    · simp only [create_video, ThumbResult.path, delete_file]
      simp [List.mem_filter]
    · intro h
      exact absurd rfl h
    · intro hin
      simp only [create_video, ThumbResult.path, delete_file]
      simp [List.mem_filter, hin, hvp2]
  | file name =>
    refine ⟨by simp [create_video, delete_file], by simp [create_video, delete_file],
      ?_, ?_, ?_⟩
    · simp only [create_video, ThumbResult.path, delete_file_snd]
      intro hmem
      simp only [List.contains_cons, beq_self_eq_true, Bool.or_true, Bool.true_or,
        if_true] at hmem
      split at hmem
      · next hc =>
        rw [Bool.and_eq_true] at hc
        rw [if_pos hc.2] at hmem
        exact not_mem_filter_ne _ _ (filter_ne_subset _ _ _ hmem)
      · exact not_mem_filter_ne _ _ hmem
    · intro h hmem
      have hbd : (path_join THUMBNAIL_STORAGE_PATH name != DEFAULT_THUMBNAIL_PATH) = true := by
        simpa using h
      simp only [create_video, ThumbResult.path, delete_file_snd] at hmem
      simp only [List.contains_cons, beq_self_eq_true, Bool.or_true, Bool.true_or,
        if_true, hbd, Bool.true_and] at hmem
      split at hmem
      · exact not_mem_filter_ne _ _ hmem
      · next hc =>
        rw [Bool.not_eq_true] at hc
        have hnm : path_join THUMBNAIL_STORAGE_PATH name
            ∉ (path_join THUMBNAIL_STORAGE_PATH name
                :: path_join VIDEO_STORAGE_PATH video_name :: fs).filter
              (fun q => q != path_join VIDEO_STORAGE_PATH video_name) := by
          simpa using hc
        exact hnm hmem
    · intro hin
      simp only [create_video, ThumbResult.path, delete_file_snd]
      simp only [List.contains_cons, beq_self_eq_true, Bool.or_true, Bool.true_or,
        if_true]
      have h3 : DEFAULT_THUMBNAIL_PATH
          ∈ (path_join THUMBNAIL_STORAGE_PATH name
              :: path_join VIDEO_STORAGE_PATH video_name :: fs).filter
            (fun q => q != path_join VIDEO_STORAGE_PATH video_name) :=
        mem_filter_ne (by simp [hin]) (Ne.symm hvp)
      split
      · next hc =>
        rw [Bool.and_eq_true] at hc
        rw [if_pos hc.2]
        have hne : DEFAULT_THUMBNAIL_PATH ≠ path_join THUMBNAIL_STORAGE_PATH name :=
          Ne.symm (by simpa using hc.1)
        exact mem_filter_ne h3 hne
      · exact h3

/-- Empty state for the C2 witness. -/
def db_c2 : DB :=
  { users := [], videos := [], comments := [], watch_history := [], subscriptions := [], video_likes := [], comment_likes := [] }

/-- Witness for C2 at concrete inputs: a forced commit failure after writing
the video file and a fresh thumbnail cleans both up and spares the default
thumbnail already on disk. -/
theorem upload_failure_cleanup_witness :
    path_join VIDEO_STORAGE_PATH "abc.mp4" ≠ DEFAULT_THUMBNAIL_PATH ∧
    ((create_video "t" none false 1 "abc.mp4" (.file "th.jpg") 0 true 0 db_c2
        [DEFAULT_THUMBNAIL_PATH]).1 = .error (.serverError "Error uploading video") ∧
      (create_video "t" none false 1 "abc.mp4" (.file "th.jpg") 0 true 0 db_c2
        [DEFAULT_THUMBNAIL_PATH]).2.1 = db_c2 ∧
      path_join VIDEO_STORAGE_PATH "abc.mp4"
        ∉ (create_video "t" none false 1 "abc.mp4" (.file "th.jpg") 0 true 0 db_c2
            [DEFAULT_THUMBNAIL_PATH]).2.2 ∧
      ((ThumbResult.file "th.jpg").path ≠ DEFAULT_THUMBNAIL_PATH →
        (ThumbResult.file "th.jpg").path
          ∉ (create_video "t" none false 1 "abc.mp4" (.file "th.jpg") 0 true 0 db_c2
              [DEFAULT_THUMBNAIL_PATH]).2.2) ∧
      (DEFAULT_THUMBNAIL_PATH ∈ ([DEFAULT_THUMBNAIL_PATH] : FS) →
        DEFAULT_THUMBNAIL_PATH
          ∈ (create_video "t" none false 1 "abc.mp4" (.file "th.jpg") 0 true 0 db_c2
              [DEFAULT_THUMBNAIL_PATH]).2.2)) :=
  ⟨by decide,
    upload_failure_cleanup "t" none false 1 "abc.mp4" (.file "th.jpg") 0 0 db_c2
      [DEFAULT_THUMBNAIL_PATH] (by decide)⟩

/-! ## C3: video deletion (amended) and its counterexample -/

/-- C3 (amended).  Deleting a video (permitted only to its uploader) removes
the video's row, its comments and its watch-history rows, deletes the
backing video file, and deletes the thumbnail file whenever a thumbnail
reference is set — including when that reference is the shared default
thumbnail: the handler has no default-thumbnail guard. -/
theorem delete_video_removes_row_files_children (db : DB) (vid uid : Nat)
    (video : Video) (fs : FS)
    (hv : db.videos.find? (fun v => v.id == vid) = some video)
    (hup : uid = video.uploader_id) :
    (delete_video vid uid db fs).1 = .ok () ∧
    (∀ w ∈ ((delete_video vid uid db fs).2.1).videos, w.id ≠ vid) ∧
    path_join VIDEO_STORAGE_PATH video.file_path ∉ (delete_video vid uid db fs).2.2 ∧
    (∀ t, video.thumbnail_path = some t →
      path_join THUMBNAIL_STORAGE_PATH t ∉ (delete_video vid uid db fs).2.2) ∧
    (∀ c ∈ ((delete_video vid uid db fs).2.1).comments, c.video_id ≠ vid) ∧
    (∀ h ∈ ((delete_video vid uid db fs).2.1).watch_history, h.video_id ≠ vid) := by
  subst hup
  refine ⟨?_, ?_, ?_, ?_, ?_, ?_⟩
  · simp [delete_video, hv]
  · intro w hw
    simp only [delete_video, hv, bne_self_eq_false, Bool.false_eq_true, if_false] at hw
    simpa using (List.mem_filter.mp hw).2
  · intro hmem
    simp only [delete_video, hv, bne_self_eq_false, Bool.false_eq_true, if_false] at hmem
    cases htp : video.thumbnail_path with
    | none =>
      rw [htp] at hmem
      exact not_mem_delete_file _ _ hmem
    | some t =>
      rw [htp] at hmem
      exact not_mem_delete_file _ _ (delete_file_subset _ _ _ hmem)
  · intro t htp hmem
    simp only [delete_video, hv, bne_self_eq_false, Bool.false_eq_true, if_false,
      htp] at hmem
    exact not_mem_delete_file _ _ hmem
  · intro c hc
    simp only [delete_video, hv, bne_self_eq_false, Bool.false_eq_true, if_false] at hc
    simpa using (List.mem_filter.mp hc).2
  · intro h hh
    simp only [delete_video, hv, bne_self_eq_false, Bool.false_eq_true, if_false] at hh
    simpa using (List.mem_filter.mp hh).2

/-- State for the C3 counterexample and witness: video 1, uploaded by user 7,
whose stored thumbnail reference is the default thumbnail's basename. -/
def db_c3 : DB :=
  { users := [{ id := 7, username := "uri", email := "u@x", is_active := true }]
    videos := [{ id := 1, title := "t", description := none, file_path := "f.mp4", thumbnail_path := some "default_video.jpg", duration := 10, views := 0, created_at := 5, is_private := false, uploader_id := 7 }]
    comments := []
    watch_history := []
    subscriptions := []
    video_likes := []
    comment_likes := [] }

/-- C3 counterexample.  Deleting a video whose thumbnail reference is the
shared default thumbnail deletes the default thumbnail file itself: before
deletion the default thumbnail exists on disk, the uploader's delete
succeeds, and afterwards the default thumbnail file is gone — contradicting
the claim that the thumbnail is deleted only when it is not the shared
default. -/
theorem delete_video_deletes_default_thumbnail :
    DEFAULT_THUMBNAIL_PATH
        ∈ ([path_join VIDEO_STORAGE_PATH "f.mp4", DEFAULT_THUMBNAIL_PATH] : FS) ∧
    (delete_video 1 7 db_c3
        [path_join VIDEO_STORAGE_PATH "f.mp4", DEFAULT_THUMBNAIL_PATH]).1 = .ok () ∧
    DEFAULT_THUMBNAIL_PATH
        ∉ (delete_video 1 7 db_c3
            [path_join VIDEO_STORAGE_PATH "f.mp4", DEFAULT_THUMBNAIL_PATH]).2.2 := by
  refine ⟨by decide, rfl, by decide⟩

/-- Witness for the amended C3 at the concrete state `db_c3`. -/
theorem delete_video_removes_row_files_children_witness :
    db_c3.videos.find? (fun v => v.id == 1)
        = some { id := 1, title := "t", description := none, file_path := "f.mp4", thumbnail_path := some "default_video.jpg", duration := 10, views := 0, created_at := 5, is_private := false, uploader_id := 7 } ∧
    (delete_video 1 7 db_c3
        [path_join VIDEO_STORAGE_PATH "f.mp4", DEFAULT_THUMBNAIL_PATH]).1 = .ok () ∧
    path_join VIDEO_STORAGE_PATH "f.mp4"
        ∉ (delete_video 1 7 db_c3
            [path_join VIDEO_STORAGE_PATH "f.mp4", DEFAULT_THUMBNAIL_PATH]).2.2 := by
  have h := delete_video_removes_row_files_children db_c3 1 7
    { id := 1, title := "t", description := none, file_path := "f.mp4", thumbnail_path := some "default_video.jpg", duration := 10, views := 0, created_at := 5, is_private := false, uploader_id := 7 }
    [path_join VIDEO_STORAGE_PATH "f.mp4", DEFAULT_THUMBNAIL_PATH]
    (by decide) rfl
  exact ⟨by decide, h.1, h.2.2.1⟩

/-! ## C1: access to a private video (amended) and its counterexample -/

/-- C1 (amended).  For a private video: viewing it, liking it, commenting on
it and recording watch progress each fail with 403 Forbidden (state
unchanged) for every authenticated caller other than the uploader, and each
succeeds for the uploader subject to its other preconditions.  Listing the
video's comments and liking one of its comments, however, perform no
visibility check: they succeed for any caller (subject to existence and
not-already-liked). -/
theorem private_video_endpoint_access (db : DB) (vid uid : Nat) (video : Video)
    (ts : Int) (now : Nat) (content : String) (skip limit : Nat)
    (hv : db.videos.find? (fun v => v.id == vid) = some video)
    (hp : video.is_private = true) :
    (uid ≠ video.uploader_id →
      get_video vid uid db
        = (.error (.forbidden "You do not have permission to view this video"), db) ∧
      like_video vid uid db
        = (.error (.forbidden "You do not have permission to like this video"), db) ∧
      create_comment vid content none uid db
        = (.error (.forbidden "You do not have permission to comment on this video"), db) ∧
      update_watch_history vid ts uid now db
        = (.error (.forbidden "You do not have permission to update watch history for this video"), db)) ∧
    (uid = video.uploader_id →
      is_ok (get_video vid uid db).1 = true ∧
      (db.video_likes.contains (uid, vid) = false →
        is_ok (like_video vid uid db).1 = true) ∧
      is_ok (create_comment vid content none uid db).1 = true ∧
      is_ok (update_watch_history vid ts uid now db).1 = true) ∧
    is_ok (get_comments vid skip limit db).1 = true ∧
    (∀ (c : Comment) (cid : Nat),
      db.comments.find? (fun x => x.id == cid) = some c →
      db.comment_likes.contains (uid, cid) = false →
      is_ok (like_comment cid uid db).1 = true) := by
  refine ⟨?_, ?_, ?_, ?_⟩
  · intro hne
    have hb : (uid != video.uploader_id) = true := by simpa using hne
    refine ⟨?_, ?_, ?_, ?_⟩
    · simp [get_video, hv, hp, hb]
    · simp [like_video, hv, hp, hb]
    · simp [create_comment, hv, hp, hb]
    · simp [update_watch_history, hv, hp, hb]
  · intro heq
    subst heq
    refine ⟨?_, ?_, ?_, ?_⟩
    · simp [get_video, hv, is_ok]
    · intro hl
      have hmem : (video.uploader_id, vid) ∉ db.video_likes := by simpa using hl
      simp [like_video, hv, is_ok, hmem]
    · simp [create_comment, hv, is_ok]
    · cases hfind : db.watch_history.find?
          (fun h => h.user_id == video.uploader_id && h.video_id == vid) with
      | some h => simp [update_watch_history, hv, is_ok, hfind]
      | none => simp [update_watch_history, hv, is_ok, hfind]
  · simp [get_comments, hv, is_ok]
  · intro c cid hc hl
    have hmem : (uid, cid) ∉ db.comment_likes := by simpa using hl
    simp [like_comment, hc, is_ok, hmem]

/-- State for the C1 counterexample and witness: private video 1 uploaded by
user 1, with comment 9 on it; user 2 is an authenticated non-uploader. -/
def db_c1 : DB :=
  { users := [{ id := 1, username := "alice", email := "a@x", is_active := true }, { id := 2, username := "bob", email := "b@x", is_active := true }]
    videos := [{ id := 1, title := "t", description := none, file_path := "f.mp4", thumbnail_path := none, duration := 10, views := 0, created_at := 5, is_private := true, uploader_id := 1 }]
    comments := [{ id := 9, content := "hi", user_id := 1, video_id := 1, parent_id := none }]
    watch_history := []
    subscriptions := []
    video_likes := []
    comment_likes := [] }

/-- C1 counterexample.  Video 1 is private and uploaded by user 1, yet
listing its comments (a handler that takes no authenticated user at all)
succeeds, and caller 2 — not the uploader — successfully likes comment 9 on
it: neither operation fails with Forbidden as the claim requires. -/
theorem private_video_comments_not_protected :
    db_c1.videos.find? (fun v => v.id == 1)
        = some { id := 1, title := "t", description := none, file_path := "f.mp4", thumbnail_path := none, duration := 10, views := 0, created_at := 5, is_private := true, uploader_id := 1 } ∧
    (2 : Nat) ≠ 1 ∧
    is_ok (get_comments 1 0 10 db_c1).1 = true ∧
    is_ok (like_comment 9 2 db_c1).1 = true := by
  refine ⟨by decide, by decide, rfl, rfl⟩

/-- Witness for the amended C1 at the concrete state `db_c1`: non-uploader 2
is forbidden from viewing, uploader 1 succeeds, and comment listing
succeeds for anyone. -/
theorem private_video_endpoint_access_witness :
    get_video 1 2 db_c1
        = (.error (.forbidden "You do not have permission to view this video"), db_c1) ∧
    is_ok (get_video 1 1 db_c1).1 = true ∧
    is_ok (get_comments 1 0 10 db_c1).1 = true := by
  have h2 := private_video_endpoint_access db_c1 1 2
    { id := 1, title := "t", description := none, file_path := "f.mp4", thumbnail_path := none, duration := 10, views := 0, created_at := 5, is_private := true, uploader_id := 1 }
    0 0 "c" 0 10 (by decide) rfl
  have h1 := private_video_endpoint_access db_c1 1 1
    { id := 1, title := "t", description := none, file_path := "f.mp4", thumbnail_path := none, duration := 10, views := 0, created_at := 5, is_private := true, uploader_id := 1 }
    0 0 "c" 0 10 (by decide) rfl
  exact ⟨(h2.1 (by decide)).1, (h1.2.1 rfl).1, h2.2.2.1⟩

/-! ## C9: the search operation -/

/-- The selected comparison is transitive. -/
theorem search_le_trans (params : VideoSearchParams) (a b c : Video)
    (h1 : search_le params a b = true) (h2 : search_le params b c = true) :
    search_le params a c = true := by
  unfold search_le at h1 h2 ⊢
  cases hb1 : (params.sort_by == some "views") <;>
    cases hb2 : (params.sort_by == some "duration") <;>
      cases hb3 : (params.sort_order == some "asc") <;>
        simp [hb1, hb2, hb3] at h1 h2 ⊢ <;>
          omega

/-- The selected comparison is total. -/
theorem search_le_total (params : VideoSearchParams) (a b : Video) :
    (search_le params a b || search_le params b a) = true := by
  unfold search_le
  cases hb1 : (params.sort_by == some "views") <;>
    cases hb2 : (params.sort_by == some "duration") <;>
      cases hb3 : (params.sort_order == some "asc") <;>
        simp [hb1, hb2, hb3] <;>
          omega

/-- The comparison ignores the pagination fields. -/
theorem search_le_pagination_invariant (q up : Option String)
    (mind maxd : Option Int) (sb so : Option String) (l1 o1 l2 o2 : Nat) :
    search_le ⟨q, up, mind, maxd, sb, so, l1, o1⟩
      = search_le ⟨q, up, mind, maxd, sb, so, l2, o2⟩ := rfl

/-- C9.  Every video returned by the search is public and satisfies each
filter that was provided (case-insensitive substring on title or
description, exact uploader username, inclusive duration bounds); the result
is sorted by the selected key and direction (`search_le`, which keys on
`views` or `duration` when named and `created_at` otherwise — descending
unless `asc` is requested, the schema defaults being `created_at`
descending); and the result is the `(offset, limit)` page of the sorted
filtered list: it equals dropping `offset` items from the same search asked
for the first `offset + limit` items. -/
theorem search_videos_spec (params : VideoSearchParams) (db : DB) :
    (∀ v ∈ search_videos params db,
      v.is_private = false ∧
      (∀ q, params.query = some q → text_match q v = true) ∧
      (∀ u, params.uploader = some u → uploader_match db.users u v = true) ∧
      (∀ m, params.min_duration = some m → m ≤ v.duration) ∧
      (∀ m, params.max_duration = some m → v.duration ≤ m)) ∧
    (search_videos params db).Pairwise (fun a b => search_le params a b = true) ∧
    search_videos params db
      = (search_videos { params with offset := 0, limit := params.offset + params.limit } db).drop
          params.offset := by
  obtain ⟨q, up, mind, maxd, sb, so, lim, off⟩ := params
  refine ⟨?_, ?_, ?_⟩
  · intro v hv
    simp only [search_videos] at hv
    have h1 := List.mem_mergeSort.mp
      ((List.drop_sublist _ _).subset ((List.take_sublist _ _).subset hv))
    cases q <;> cases up <;> cases mind <;> cases maxd <;>
      (simp only [List.mem_filter, Bool.and_eq_true] at h1;
       refine ⟨?_, ?_, ?_, ?_, ?_⟩ <;> simp_all)
  · simp only [search_videos]
    apply List.Pairwise.sublist (List.take_sublist _ _)
    apply List.Pairwise.sublist (List.drop_sublist _ _)
    exact List.sorted_mergeSort
      (fun a b c h1 h2 => search_le_trans _ a b c h1 h2)
      (fun a b => search_le_total _ a b) _
  · simp only [search_videos, List.drop_zero,
      search_le_pagination_invariant q up mind maxd sb so (off + lim) 0 lim off]
    rw [List.drop_take]
    congr 1
    omega

/-- State for the C9 witness: public videos 1 and 2 and private video 3. -/
def db_c9 : DB :=
  { users := [{ id := 1, username := "alice", email := "a@x", is_active := true }]
    videos := [{ id := 1, title := "Cats", description := none, file_path := "a.mp4", thumbnail_path := none, duration := 30, views := 7, created_at := 10, is_private := false, uploader_id := 1 }, { id := 2, title := "Dogs", description := some "good dogs", file_path := "b.mp4", thumbnail_path := none, duration := 60, views := 3, created_at := 5, is_private := false, uploader_id := 1 }, { id := 3, title := "Secret", description := none, file_path := "c.mp4", thumbnail_path := none, duration := 10, views := 0, created_at := 20, is_private := true, uploader_id := 1 }]
    comments := []
    watch_history := []
    subscriptions := []
    video_likes := []
    comment_likes := [] }

/-- Witness for C9 at the concrete state `db_c9` with the default search
parameters: video 1 is in the result and the theorem yields that it is
public. -/
theorem search_videos_spec_witness :
    ({ id := 1, title := "Cats", description := none, file_path := "a.mp4", thumbnail_path := none, duration := 30, views := 7, created_at := 10, is_private := false, uploader_id := 1 } : Video)
        ∈ search_videos {} db_c9 ∧
    ({ id := 1, title := "Cats", description := none, file_path := "a.mp4", thumbnail_path := none, duration := 30, views := 7, created_at := 10, is_private := false, uploader_id := 1 } : Video).is_private
        = false := by
  have hmem : ({ id := 1, title := "Cats", description := none, file_path := "a.mp4", thumbnail_path := none, duration := 30, views := 7, created_at := 10, is_private := false, uploader_id := 1 } : Video)
      ∈ search_videos {} db_c9 := by
    have hms : List.mergeSort [({ id := 1, title := "Cats", description := none, file_path := "a.mp4", thumbnail_path := none, duration := 30, views := 7, created_at := 10, is_private := false, uploader_id := 1 } : Video), ({ id := 2, title := "Dogs", description := some "good dogs", file_path := "b.mp4", thumbnail_path := none, duration := 60, views := 3, created_at := 5, is_private := false, uploader_id := 1 } : Video)] (search_le {})
        = [({ id := 1, title := "Cats", description := none, file_path := "a.mp4", thumbnail_path := none, duration := 30, views := 7, created_at := 10, is_private := false, uploader_id := 1 } : Video), ({ id := 2, title := "Dogs", description := some "good dogs", file_path := "b.mp4", thumbnail_path := none, duration := 60, views := 3, created_at := 5, is_private := false, uploader_id := 1 } : Video)] :=
      List.mergeSort_of_sorted (by decide)
    have hq4 : db_c9.videos.filter (fun v => v.is_private == false)
        = [({ id := 1, title := "Cats", description := none, file_path := "a.mp4", thumbnail_path := none, duration := 30, views := 7, created_at := 10, is_private := false, uploader_id := 1 } : Video), ({ id := 2, title := "Dogs", description := some "good dogs", file_path := "b.mp4", thumbnail_path := none, duration := 60, views := 3, created_at := 5, is_private := false, uploader_id := 1 } : Video)] := by
      decide
    simp only [search_videos]
    rw [hq4, hms]
    simp
  exact ⟨hmem, ((search_videos_spec {} db_c9).1 _ hmem).1⟩

end VSHub
